import Mathlib

/-!
Verification of the AMSL0-yocto-temps repository.

The repository has two Python scripts, both modelled in namespace
`TempsModel`:
* `plot_temps.py` — the offline query/filter/plot engine over the CSV log
  (`main(args)`, embedded as `preprocess`/`finalize`/`main`);
* `read_temps.py` — the acquisition loop (`poll_and_plot_temps`), whose
  durable-log writer (`csvLine`/`writeLog`) and per-sensor live buffer
  (`pushReading`) are the modelled parts.

Timestamps are modelled as microseconds since the Unix epoch (an `Int`),
obtained from the textual form by a character-level parser that follows the
semantics of `pd.to_datetime(..., format='%Y-%m-%d %H:%M:%S.%f',
errors='coerce')`: the format must match the whole string (pandas'
`exact=True` default), the date must be calendar-valid, and values outside
the span representable by pandas' 64-bit nanosecond timestamps are coerced
to missing.  Temperatures are modelled as rationals: the log only ever
contains finite decimal literals, which pandas' float conversion reads back
exactly as the value `repr` printed (CPython's round-trip guarantee), so
finite decimals are an exact model at the granularity the claims use.
-/

set_option linter.unusedVariables false

namespace TempsModel

/-- Numeric value of a decimal digit character, `none` for non-digits. -/
def digit? (c : Char) : Option Nat :=
  if '0' ≤ c ∧ c ≤ '9' then some (c.toNat - 48) else none

/-- Read exactly two digit characters as a number. -/
def read2 : List Char → Option (Nat × List Char)
  | a :: b :: rest =>
    match digit? a, digit? b with
    | some x, some y => some (10 * x + y, rest)
    | _, _ => none
  | _ => none

/-- Read exactly four digit characters as a number (the `%Y` field). -/
def read4 : List Char → Option (Nat × List Char)
  | a :: b :: c :: d :: rest =>
    match digit? a, digit? b, digit? c, digit? d with
    | some x, some y, some z, some w => some (1000 * x + 100 * y + 10 * z + w, rest)
    | _, _, _, _ => none
  | _ => none

/-- Consume one expected literal character of the format. -/
def expectCh (c : Char) : List Char → Option (List Char)
  | a :: rest => if a = c then some rest else none
  | [] => none

/-- Accumulate the value of a digit string, failing on a non-digit. -/
def digitsValAux (acc : Nat) : List Char → Option Nat
  | [] => some acc
  | c :: cs =>
    match digit? c with
    | some d => digitsValAux (acc * 10 + d) cs
    | none => none

/-- The `%f` field: one to six digits, scaled to microseconds
(the writer never emits more than six; finer sub-microsecond digits are not
modelled). -/
def fracMicro (cs : List Char) : Option Nat :=
  if 1 ≤ cs.length ∧ cs.length ≤ 6 then
    (digitsValAux 0 cs).map (· * 10 ^ (6 - cs.length))
  else none

/-- Gregorian leap year. -/
def isLeap (y : Nat) : Bool :=
  y % 4 = 0 && (y % 100 ≠ 0 || y % 400 = 0)

/-- Days in a month of the Gregorian calendar. -/
def daysInMonth (y mo : Nat) : Nat :=
  if mo = 2 then (if isLeap y then 29 else 28)
  else if mo = 4 ∨ mo = 6 ∨ mo = 9 ∨ mo = 11 then 30
  else 31

/-- Days from the Unix epoch (1970-01-01) to the given civil date
(Howard Hinnant's `days_from_civil` algorithm). -/
def daysFromCivil (y mo d : Nat) : Int :=
  let y' := if mo ≤ 2 then y - 1 else y
  let era := y' / 400
  let yoe := y' % 400
  let mp := if mo ≤ 2 then mo + 9 else mo - 3
  let doy := (153 * mp + 2) / 5 + d - 1
  let doe := yoe * 365 + yoe / 4 - yoe / 100 + doy
  (era * 146097 + doe : Int) - 719468

/-- Microseconds since the Unix epoch of a broken-down datetime. -/
def epochMicroOf (y mo d h mi s us : Nat) : Int :=
  daysFromCivil y mo d * 86400000000 + (h * 3600000000 + mi * 60000000 + s * 1000000 + us : Nat)

/-- Pandas timestamps are 64-bit signed nanosecond counts; textual dates
outside that span raise `OutOfBoundsDatetime`, which `errors='coerce'` turns
into a missing value.  This is that bound, expressed in microseconds. -/
def tsInBounds (t : Int) : Bool :=
  decide (-9223372036854775 ≤ t ∧ t ≤ 9223372036854775)

/-- Field-range validation performed by the datetime parser. -/
def validDate (y mo d h mi s : Nat) : Bool :=
  1 ≤ mo && mo ≤ 12 && 1 ≤ d && d ≤ daysInMonth y mo && h ≤ 23 && mi ≤ 59 && s ≤ 59

/-- The common `%Y-%m-%d %H:%M:%S` head of both timestamp formats:
returns the six numeric fields and the unconsumed tail. -/
def parseDateTimeCore (cs : List Char) : Option (Nat × Nat × Nat × Nat × Nat × Nat × List Char) := do
  let (y, cs) ← read4 cs
  let cs ← expectCh '-' cs
  let (mo, cs) ← read2 cs
  let cs ← expectCh '-' cs
  let (d, cs) ← read2 cs
  let cs ← expectCh ' ' cs
  let (h, cs) ← read2 cs
  let cs ← expectCh ':' cs
  let (mi, cs) ← read2 cs
  let cs ← expectCh ':' cs
  let (s, cs) ← read2 cs
  pure (y, mo, d, h, mi, s, cs)

/-- `pd.to_datetime(x, format='%Y-%m-%d %H:%M:%S.%f')` on one string
(`plot_temps.py` line 21): the fractional part is mandatory because the
format is matched exactly, and failures yield `none` (NaT under
`errors='coerce'`). -/
def parseTimestampSubsec (cs : List Char) : Option Int := do
  let (y, mo, d, h, mi, s, rest) ← parseDateTimeCore cs
  let rest ← expectCh '.' rest
  let us ← fracMicro rest
  if validDate y mo d h mi s then
    let t := epochMicroOf y mo d h mi s us
    if tsInBounds t then some t else none
  else none

/-- `pd.to_datetime(x, format='%Y-%m-%d %H:%M:%S')` on one string
(`plot_temps.py` lines 39 and 44, used for `--from_time`/`--to_time`):
whole-second form, matched exactly against the entire string. -/
def parseTimestampWhole (cs : List Char) : Option Int := do
  let (y, mo, d, h, mi, s, rest) ← parseDateTimeCore cs
  if rest = [] ∧ validDate y mo d h mi s then
    let t := epochMicroOf y mo d h mi s 0
    if tsInBounds t then some t else none
  else none





/-- Longest leading run of digits and the remainder of the string. -/
def spanDigits : List Char → List Char × List Char
  | [] => ([], [])
  | c :: cs =>
    if (digit? c).isSome then
      let (a, b) := spanDigits cs
      (c :: a, b)
    else ([], c :: cs)

/-- An exact finite decimal, `num / 10 ^ exp`.  The log's temperature
fields are finite decimal literals (Python `str` of a float); pandas reads
them into float64, and CPython's repr round-trip guarantee makes the
correspondence between a float and the literal the writer printed for it
one-to-one, so exact decimals model the parsed values faithfully. -/
structure DecVal where
  num : Int
  exp : Nat
deriving DecidableEq, Repr

/-- The rational value of a `DecVal`. -/
def DecVal.toRat (d : DecVal) : ℚ := (d.num : ℚ) / (10 : ℚ) ^ d.exp

/-- Plain finite decimal literal without a sign. -/
def parseUnsignedDec (cs : List Char) : Option DecVal :=
  let (ip, rest) := spanDigits cs
  match rest with
  | [] =>
    if ip = [] then none
    else (digitsValAux 0 ip).map (fun n => ⟨(n : Int), 0⟩)
  | '.' :: frac =>
    let (fd, rest2) := spanDigits frac
    if rest2 = [] ∧ ¬(ip = [] ∧ fd = []) then
      match digitsValAux 0 ip, digitsValAux 0 fd with
      | some i, some f => some ⟨((i * 10 ^ fd.length + f : Nat) : Int), fd.length⟩
      | _, _ => none
    else none
  | _ => none

/-- Pandas' numeric conversion of a `temp` field: an optional sign followed
by a finite decimal literal.  Exponent forms and `inf`/`nan` spellings never
occur in the log and are not modelled; a non-numeric field is treated as
missing. -/
def parseDec (cs : List Char) : Option DecVal :=
  match cs with
  | '-' :: rest => (parseUnsignedDec rest).map fun d => ⟨-d.num, d.exp⟩
  | '+' :: rest => parseUnsignedDec rest
  | _ => parseUnsignedDec cs

example : parseDec "-3.0".data = some ⟨-30, 1⟩ := by decide

/-- Split a CSV line at commas (`plot_temps.py` line 15 reads the log with
`pd.read_csv(filename, names=['time', 'name', 'temp'])`; no field written by
the acquisition loop ever contains a quote or a comma, so csv quoting never
triggers and a plain split is exact). -/
def splitComma : List Char → List (List Char)
  | [] => [[]]
  | c :: cs =>
    let r := splitComma cs
    if c = ',' then [] :: r
    else
      match r with
      | f :: rest => (c :: f) :: rest
      | [] => [[c]]

/-- One row of the three-column frame produced by `read_csv` with
`names=['time', 'name', 'temp']`: a row with fewer fields is padded with
missing values (pandas NaN), and an empty field is also read as missing. -/
structure RawRow where
  time : Option (List Char)
  name : Option (List Char)
  temp : Option (List Char)
deriving DecidableEq, Repr

/-- Normalize a field: absent or empty means missing (NaN). -/
def normField : Option (List Char) → Option (List Char)
  | some [] => none
  | o => o

/-- Tokenize one log line into a `RawRow`; a line with more than three
fields makes `read_csv` raise `ParserError` (`on_bad_lines='error'` is the
default), modelled as `none`. -/
def rowOfLine (cs : List Char) : Option RawRow :=
  let fs := splitComma cs
  if fs.length > 3 then none
  else some ⟨normField fs[0]?, normField fs[1]?, normField fs[2]?⟩

/-- `pd.read_csv` over the whole file: blank lines are skipped
(`skip_blank_lines` default), a zero-row file raises `EmptyDataError` and a
bad line raises `ParserError` — both uncaught by `main`, modelled as
`none`. -/
def readCsv (lines : List String) : Option (List RawRow) :=
  let ls := (lines.filter (fun l => l ≠ "")).map String.data
  if ls = [] then none
  else ls.mapM rowOfLine

/-- A parsed log row after `pd.to_datetime` and `dropna(subset=['time'])`
(`plot_temps.py` lines 21-22): epoch-microsecond timestamp, sensor name
(missing when the field was NaN) and temperature (missing when NaN or
non-numeric). -/
structure Reading where
  time : Int
  name : Option String
  temp : Option DecVal
deriving DecidableEq, Repr

/-- Timestamp conversion and `dropna` for one raw row. -/
def parseRow (row : RawRow) : Option Reading :=
  (row.time.bind parseTimestampSubsec).map fun t =>
    ⟨t, (row.name.map fun cs => String.mk cs), row.temp.bind parseDec⟩

/-- The dataframe after line 22: rows whose timestamp failed to parse are
dropped, everything else is kept in file order. -/
def parsedOfRows (rows : List RawRow) : List Reading :=
  rows.filterMap parseRow

/-- The parsed readings of a log file (empty when `read_csv` itself
raises). -/
def parsedLog (lines : List String) : List Reading :=
  (readCsv lines).elim [] parsedOfRows

/-- `df['time'].max()` (0 on an empty frame, never used there). -/
def maxTime : List Reading → Int
  | [] => 0
  | r :: rs => (rs.map Reading.time).foldl max r.time

/-- `df['time'].min()` (0 on an empty frame, never used there). -/
def minTime : List Reading → Int
  | [] => 0
  | r :: rs => (rs.map Reading.time).foldl min r.time

/-- Python truthiness of the `--last-hours` float: `None` and `0.0` are
falsy. -/
def truthyQ : Option ℚ → Bool
  | none => false
  | some q => q != 0

/-- Python truthiness of an optional string flag: `None` and `""` are
falsy. -/
def truthyS : Option String → Bool
  | none => false
  | some s => s != ""

/-- Hours, as a `pd.to_timedelta(·, unit='h')` length in microseconds. -/
def hoursToMicro (h : ℚ) : ℚ := h * 3600000000

/-- `plot_temps.py` lines 33-36: when `args.last_hours` is truthy, keep the
rows at or after `df['time'].max() - to_timedelta(last_hours, 'h')`,
computed over the whole parsed set. -/
def applyLastHours (lh : Option ℚ) (rs : List Reading) : List Reading :=
  match lh with
  | none => rs
  | some h =>
    if h = 0 then rs
    else rs.filter fun r => decide ((maxTime rs : ℚ) - hoursToMicro h ≤ (r.time : ℚ))

/-- `plot_temps.py` lines 38-41: when `args.from_time` is truthy, parse it
with the whole-second format (a parse failure raises, modelled as `none`)
and keep rows with `time >= from_time`. -/
def applyFrom (ft : Option String) (rs : List Reading) : Option (List Reading) :=
  match ft with
  | none => some rs
  | some s =>
    if s = "" then some rs
    else
      match parseTimestampWhole s.data with
      | none => none
      | some v => some (rs.filter fun r => decide (v ≤ r.time))

/-- `plot_temps.py` lines 43-46: the symmetric upper bound,
`time <= to_time`. -/
def applyTo (tt : Option String) (rs : List Reading) : Option (List Reading) :=
  match tt with
  | none => some rs
  | some s =>
    if s = "" then some rs
    else
      match parseTimestampWhole s.data with
      | none => none
      | some v => some (rs.filter fun r => decide (r.time ≤ v))

/-- First-occurrence deduplication, the order `pandas.Series.unique`
returns values in; `seen` accumulates the values already emitted. -/
def uniqFirstAux [DecidableEq α] : List α → List α → List α
  | _, [] => []
  | seen, a :: as =>
    if a ∈ seen then uniqFirstAux seen as
    else a :: uniqFirstAux (a :: seen) as

/-- `Series.unique()`: distinct values in order of first appearance. -/
def uniqFirst [DecidableEq α] (l : List α) : List α :=
  uniqFirstAux [] l

/-- `df['time'].unique()` on the filtered frame (`plot_temps.py` line 84). -/
def distinctTimes (rs : List Reading) : List Int :=
  uniqFirst (rs.map Reading.time)

/-- `step = max(1, len(unique_times) // 10)` (`plot_temps.py` line 85). -/
def strideOf (rs : List Reading) : Nat :=
  max 1 ((distinctTimes rs).length / 10)

/-- Python slicing `l[::s]` for `s ≥ 1`: every `s`-th element starting at
index 0. -/
def everyNth (s : Nat) (l : List α) : List α :=
  (l.enum.filter fun p => p.1 % s = 0).map Prod.snd

/-- `ax.set_xticks(unique_times[::step])` (`plot_temps.py` line 86). -/
def ticksOf (rs : List Reading) : List Int :=
  everyNth (strideOf rs) (distinctTimes rs)

/-- `df[df['name'] == name]` projected to the plotted `(time, temp)` pairs,
in frame order (`plot_temps.py` lines 70-72 — note: no sort). -/
def seriesFor (rs : List Reading) (n : Option String) : List (Int × Option DecVal) :=
  (rs.filter fun r => r.name = n).map fun r => (r.time, r.temp)

/-- The CLI arguments of `plot_temps.py` that reach `main` (the file and
output paths play no role in the modelled logic). -/
structure Args where
  name : Option (List String)
  last_hours : Option ℚ
  from_time : Option String
  to_time : Option String
deriving Repr

/-- `--name`/`--last-hours`/`--from_time`/`--to_time` all defaulted. -/
def defaultArgs : Args := ⟨none, none, none, none⟩

/-- The distinguishable ways `main` terminates without rendering:
`pandasError`, `fromParseError` and `toParseError` are uncaught exceptions,
the others are the printed-message-and-return paths. -/
inductive MainErr where
  | pandasError
  | noValidData
  | mutuallyExclusive
  | fromParseError
  | toParseError
  | noDataInRange
  | namesNotFound (invalid : List String)
deriving DecidableEq, Repr

/-- Everything `main` hands to the matplotlib sink: the per-sensor series,
the summary start/end timestamps (also used as the x-axis limits), the tick
positions and the tick-sampling stride. -/
structure Output where
  series : List (Option String × List (Int × Option DecVal))
  startT : Int
  endT : Int
  ticks : List Int
  tickStride : Nat
deriving DecidableEq, Repr

/-- Structural decidable equality for `Except` results. -/
instance {ε α : Type _} [DecidableEq ε] [DecidableEq α] : DecidableEq (Except ε α) := fun a b =>
  match a, b with
  | .error e, .error f =>
    match decEq e f with
    | isTrue h => isTrue (h ▸ rfl)
    | isFalse h => isFalse fun hc => h (Except.error.inj hc)
  | .ok x, .ok y =>
    match decEq x y with
    | isTrue h => isTrue (h ▸ rfl)
    | isFalse h => isFalse fun hc => h (Except.ok.inj hc)
  | .error _, .ok _ => isFalse fun hc => Except.noConfusion hc
  | .ok _, .error _ => isFalse fun hc => Except.noConfusion hc

/-- `plot_temps.py` lines 14-50: read the log, parse/drop timestamps,
reject the mutually-exclusive filter combination, apply the time filters in
program order, and stop on an empty result.  Only the three filter flags
matter here — the `--name` flag is not consulted before line 61. -/
def preprocess (lh : Option ℚ) (ft tt : Option String) (lines : List String) :
    Except MainErr (List Reading) :=
  match readCsv lines with
  | none => .error .pandasError
  | some rows =>
    let df0 := parsedOfRows rows
    if df0 = [] then .error .noValidData
    else if truthyQ lh && (truthyS ft || truthyS tt) then .error .mutuallyExclusive
    else
      let df1 := applyLastHours lh df0
      match applyFrom ft df1 with
      | none => .error .fromParseError
      | some df2 =>
        match applyTo tt df2 with
        | none => .error .toParseError
        | some df3 =>
          if df3 = [] then .error .noDataInRange else .ok df3

/-- `plot_temps.py` lines 59-66: with `--name` absent (or the falsy empty
list) every distinct name of the filtered frame is plotted; otherwise every
requested name is checked against the names present in the filtered frame
`df`, and any absentee fails the query carrying the offending names. -/
def plotNamesResult (nameArg : Option (List String)) (df : List Reading) :
    Except (List String) (List (Option String)) :=
  let names := uniqFirst (df.map Reading.name)
  match nameArg with
  | none => .ok names
  | some ns =>
    if ns = [] then .ok names
    else
      let invalid := ns.filter fun n => !decide (some n ∈ names)
      if invalid = [] then .ok (ns.map some) else .error invalid

/-- `plot_temps.py` lines 52-53 and 69-86: the rendered data.  The name
selection only chooses which series are drawn; the summary times, axis
limits and tick positions always come from the whole filtered frame
`df`. -/
def mkOutput (df : List Reading) (pns : List (Option String)) : Output :=
  { series := pns.map fun n => (n, seriesFor df n)
    startT := minTime df
    endT := maxTime df
    ticks := ticksOf df
    tickStride := strideOf df }

/-- `plot_temps.py` lines 52-86: name validation, then rendering. -/
def finalize (nameArg : Option (List String)) (df : List Reading) :
    Except MainErr Output :=
  match plotNamesResult nameArg df with
  | .error inv => .error (.namesNotFound inv)
  | .ok pns => .ok (mkOutput df pns)

/-- `main(args)` of `plot_temps.py` on the lines of the log file. -/
def main (args : Args) (lines : List String) : Except MainErr Output :=
  (preprocess args.last_hours args.from_time args.to_time lines).bind
    (finalize args.name)


/-- A captured wall-clock instant (`datetime.now()` in `read_temps.py`
line 95), in broken-down form as Python prints it. -/
structure PyDateTime where
  year : Nat
  month : Nat
  day : Nat
  hour : Nat
  minute : Nat
  second : Nat
  usec : Nat
deriving DecidableEq, Repr

/-- Decimal digit character. -/
def digitChar (d : Nat) : Char := Char.ofNat (48 + d)

/-- Two-digit zero-padded field. -/
def pad2 (n : Nat) : List Char := [digitChar (n / 10 % 10), digitChar (n % 10)]

/-- Four-digit zero-padded field. -/
def pad4 (n : Nat) : List Char :=
  [digitChar (n / 1000 % 10), digitChar (n / 100 % 10), digitChar (n / 10 % 10),
    digitChar (n % 10)]

/-- Six-digit zero-padded field. -/
def pad6 (n : Nat) : List Char :=
  [digitChar (n / 100000 % 10), digitChar (n / 10000 % 10), digitChar (n / 1000 % 10),
    digitChar (n / 100 % 10), digitChar (n / 10 % 10), digitChar (n % 10)]

/-- Python `str(datetime)` (`datetime.isoformat(sep=' ')`):
`YYYY-MM-DD HH:MM:SS.ffffff`, with the entire fractional part omitted when
the microsecond field is exactly zero. -/
def strDatetime (t : PyDateTime) : List Char :=
  pad4 t.year ++ '-' :: pad2 t.month ++ '-' :: pad2 t.day ++ ' ' :: pad2 t.hour ++
    ':' :: pad2 t.minute ++ ':' :: pad2 t.second ++
    (if t.usec = 0 then [] else '.' :: pad6 t.usec)

/-- Python `str` of a non-negative float below 1e16: integer part, a dot,
then the fractional digits (`"0"` when the value is integral — a float
always prints with a decimal point). -/
def strFloatNonneg (d : DecVal) : List Char :=
  let n := d.num.toNat
  Nat.toDigits 10 (n / 10 ^ d.exp) ++
    '.' :: (if d.exp = 0 then ['0'] else
      (List.replicate (d.exp - (Nat.toDigits 10 (n % 10 ^ d.exp)).length) '0') ++
        Nat.toDigits 10 (n % 10 ^ d.exp))

/-- Python `str(float)` for the plain decimal regime the sensors produce. -/
def strFloat (d : DecVal) : List Char :=
  if d.num < 0 then '-' :: strFloatNonneg ⟨-d.num, d.exp⟩ else strFloatNonneg d

example : String.mk (strFloat ⟨3, 0⟩) = "3.0" := by decide

/-- One Reading as the Durable Log Writer appends it (`read_temps.py`
lines 110-112): `csv_writer.writerow([current_time, name, temp_value])`.
None of the serialized fields contains a comma, quote or newline, so the
csv module writes them verbatim. -/
def csvLine (ts : PyDateTime) (nm : String) (v : DecVal) : String :=
  String.mk (strDatetime ts ++ ',' :: nm.data ++ ',' :: strFloat v)

/-- The log produced by a sequence of appends through the writer. -/
def writeLog (entries : List (PyDateTime × String × DecVal)) : List String :=
  entries.map fun e => csvLine e.1 e.2.1 e.2.2


/-- The per-sensor live view (`read_temps.py` lines 114-128): the parallel
`times`/`temps` lists of `sensor_data[name]` (the matplotlib line handle
carries no state of its own). -/
structure SensorData where
  times : List Int
  temps : List ℚ
deriving Repr

/-- One push (`read_temps.py` lines 122-128): append the tick's reading to
both lists, then `if len(times) > 60: pop(0)` on both. -/
def pushReading (d : SensorData) (t : Int) (v : ℚ) : SensorData :=
  if (d.times ++ [t]).length > 60 then ⟨(d.times ++ [t]).drop 1, (d.temps ++ [v]).drop 1⟩
  else ⟨d.times ++ [t], d.temps ++ [v]⟩

/-- A buffer built by a sequence of pushes starting from the lazily-created
empty buffer (`read_temps.py` lines 114-120). -/
def applyPushes (ps : List (Int × ℚ)) : SensorData :=
  ps.foldl (fun d p => pushReading d p.1 p.2) ⟨[], []⟩

/-! ### Concrete inputs used by the claim theorems -/

/-- A one-reading log whose single line has a sub-second timestamp. -/
def logC1 : List String := ["2024-01-01 10:00:00.500000,A,1.0"]

/-- Both filter modes supplied, but with `--last-hours 0`, which is falsy
in Python. -/
def argsC1 : Args := ⟨none, some 0, some "2024-01-01 09:00:00", none⟩

/-- A line whose timestamp is in whole-second form. -/
def lineWholeSecond : String := "2024-01-01 10:00:00,A,23.5"

/-- A line with a sub-second timestamp. -/
def lineSubSecond : String := "2024-01-01 10:00:01.250000,A,24.0"

/-- A line whose first field is no timestamp at all. -/
def lineGarbage : String := "not a timestamp,A,24.0"

/-- A capture instant whose microsecond field is exactly zero, as a
`datetime.now()` result can be. -/
def dtMicroZero : PyDateTime := ⟨2024, 1, 1, 10, 0, 0, 0⟩

/-- A well-formed log line with the given minute and second fields. -/
def lineAt (mi s : Nat) : String :=
  String.mk ("2024-01-01 10:".data ++ pad2 mi ++ ':' :: pad2 s ++ ".500000,A,23.5".data)

/-- 100 log lines: 99 fully valid ones and one malformed by a missing
(trailing, temperature) field. -/
def log100 : List String :=
  (List.range 99).map (fun i => lineAt (i / 60) (i % 60)) ++
    ["2024-01-01 12:00:00.500000,A"]

/-- Sensor `A` appears in the log only before 11:00, `B` on both sides. -/
def logC6 : List String :=
  ["2024-01-01 10:00:00.500000,A,1.0",
   "2024-01-01 10:00:00.500000,B,1.5",
   "2024-01-01 12:00:00.500000,B,2.0"]

/-- Query `A` restricted to the times after 11:00. -/
def argsC6 : Args := ⟨some ["A"], none, some "2024-01-01 11:00:00", none⟩

/-- A log whose two lines are not in chronological order. -/
def logC7 : List String :=
  ["2024-01-01 12:00:00.100000,A,2.0",
   "2024-01-01 10:00:00.100000,A,1.0"]

/-- Two sensors, one reading each, one second apart. -/
def logC10 : List String :=
  ["2024-01-01 10:00:00.500000,A,21.0",
   "2024-01-01 10:00:01.500000,B,22.0"]

/-- What the query on `logC10` restricted to sensor `A` renders: the series
of `A` alone, but summary times and ticks from both sensors' readings. -/
def outC10 : Output :=
  { series := [(some "A", [(1704103200500000, some ⟨210, 1⟩)])]
    startT := 1704103200500000
    endT := 1704103201500000
    ticks := [1704103200500000, 1704103201500000]
    tickStride := 1 }

/-- A one-element parsed set for the filter witnesses. -/
def rsC5 : List Reading := [⟨1704103200500000, some "A", some ⟨10, 0⟩⟩]

/-- A lower bound below the reading of `rsC5`. -/
def fromStr : String := "2024-01-01 09:00:00"

/-- An upper bound above the reading of `rsC5`. -/
def toStr : String := "2024-01-01 11:00:00"

/-- A live buffer at full capacity. -/
def bufFull : SensorData :=
  ⟨(List.range 60).map (fun i : ℕ => (i : Int)), (List.range 60).map (fun i : ℕ => (i : ℚ))⟩

/-- A parsed set with 1000 readings at 1000 distinct timestamps. -/
def rs1000 : List Reading :=
  (List.range 1000).map fun i : ℕ => ⟨(i : Int), some "A", some ⟨10, 0⟩⟩

/-! ### Sanity examples -/

example : parseTimestampSubsec "2024-01-01 10:00:00.500000".data =
    some 1704103200500000 := by decide

example : parseTimestampSubsec "2024-01-01 10:00:00".data = none := by decide

example : parseTimestampWhole "2024-01-01 10:00:00".data = some 1704103200000000 := by decide

example : parseTimestampWhole "2024-02-30 10:00:00".data = none := by decide

example : parseDec "23.5".data = some ⟨235, 1⟩ := by decide

example : parseDec "".data = none := by decide

example :
    main defaultArgs ["2024-01-01 10:00:00.500000,A,23.5"] =
      .ok { series := [(some "A", [(1704103200500000, some ⟨235, 1⟩)])]
            startT := 1704103200500000
            endT := 1704103200500000
            ticks := [1704103200500000]
            tickStride := 1 } := by decide

example : String.mk (strFloat ⟨235, 1⟩) = "23.5" := by decide

example : String.mk (strFloat ⟨-305, 2⟩) = "-3.05" := by decide

example :
    csvLine ⟨2024, 1, 1, 10, 0, 0, 500000⟩ "A" ⟨235, 1⟩ =
      "2024-01-01 10:00:00.500000,A,23.5" := by decide

/-! ### Helper lemmas -/

theorem mem_uniqFirstAux [DecidableEq α] (l : List α) :
    ∀ (seen : List α) (a : α), a ∈ uniqFirstAux seen l ↔ a ∈ l ∧ a ∉ seen := by
  induction l with
  | nil => intro seen a; simp [uniqFirstAux]
  | cons b bs ih =>
    intro seen a
    simp only [uniqFirstAux]
    by_cases hb : b ∈ seen
    · rw [if_pos hb, ih]
      constructor
      · rintro ⟨h1, h2⟩
        exact ⟨List.Mem.tail _ h1, h2⟩
      · rintro ⟨h1, h2⟩
        cases List.mem_cons.1 h1 with
        | inl he => subst he; exact absurd hb h2
        | inr hm => exact ⟨hm, h2⟩
    · rw [if_neg hb]
      constructor
      · intro h
        cases List.mem_cons.1 h with
        | inl he => subst he; exact ⟨List.Mem.head _, hb⟩
        | inr hm =>
          have h3 := (ih (b :: seen) a).1 hm
          exact ⟨List.Mem.tail _ h3.1, fun hs => h3.2 (List.Mem.tail _ hs)⟩
      · rintro ⟨h1, h2⟩
        cases List.mem_cons.1 h1 with
        | inl he => subst he; exact List.Mem.head _
        | inr hm =>
          by_cases hab : a = b
          · subst hab; exact List.Mem.head _
          · refine List.Mem.tail _ ((ih (b :: seen) a).2 ⟨hm, ?_⟩)
            intro hs
            cases List.mem_cons.1 hs with
            | inl h4 => exact hab h4
            | inr h4 => exact h2 h4

theorem mem_uniqFirst [DecidableEq α] (l : List α) (a : α) :
    a ∈ uniqFirst l ↔ a ∈ l := by
  rw [uniqFirst, mem_uniqFirstAux]
  simp

theorem uniqFirstAux_eq_self [DecidableEq α] (l : List α) :
    ∀ seen : List α, l.Nodup → (∀ a ∈ l, a ∉ seen) → uniqFirstAux seen l = l := by
  induction l with
  | nil => intro seen _ _; rfl
  | cons b bs ih =>
    intro seen hnd hdisj
    have hb : b ∉ seen := hdisj b (List.mem_cons_self b bs)
    simp only [uniqFirstAux, if_neg hb]
    rw [ih (b :: seen) (List.Nodup.of_cons hnd)]
    intro a ha
    intro hs
    rcases List.mem_cons.1 hs with rfl | hs
    · exact (List.nodup_cons.1 hnd).1 ha
    · exact hdisj a (List.mem_cons_of_mem _ ha) hs

theorem pushReading_inv (d : SensorData) (t : Int) (v : ℚ)
    (he : d.times.length = d.temps.length) (hle : d.times.length ≤ 60) :
    (pushReading d t v).times.length = (pushReading d t v).temps.length ∧
      (pushReading d t v).times.length ≤ 60 := by
  rw [pushReading]
  by_cases hgt : (d.times ++ [t]).length > 60
  · rw [if_pos hgt]
    simp only [List.length_drop, List.length_append, List.length_cons, List.length_nil] at *
    omega
  · rw [if_neg hgt]
    simp only [List.length_append, List.length_cons, List.length_nil] at *
    omega

theorem foldl_push_inv (ps : List (Int × ℚ)) :
    ∀ d : SensorData, d.times.length = d.temps.length → d.times.length ≤ 60 →
      (ps.foldl (fun d p => pushReading d p.1 p.2) d).times.length =
          (ps.foldl (fun d p => pushReading d p.1 p.2) d).temps.length ∧
        (ps.foldl (fun d p => pushReading d p.1 p.2) d).times.length ≤ 60 := by
  induction ps with
  | nil => intro d he hle; exact ⟨he, hle⟩
  | cons p ps ih =>
    intro d he hle
    have h := pushReading_inv d p.1 p.2 he hle
    exact ih _ h.1 h.2

theorem distinctTimes_rs1000 : (distinctTimes rs1000).length = 1000 := by
  have hcomp :
      (Reading.time ∘ fun i : ℕ => (⟨(i : Int), some "A", some ⟨10, 0⟩⟩ : Reading)) =
        fun i : ℕ => (i : Int) := rfl
  have hmap : rs1000.map Reading.time = (List.range 1000).map (fun i : ℕ => (i : Int)) := by
    rw [rs1000, List.map_map, hcomp]
  have hnd : (rs1000.map Reading.time).Nodup := by
    rw [hmap]
    exact (List.nodup_range 1000).map (fun a b h => Int.natCast_inj.mp h)
  rw [distinctTimes, uniqFirst, uniqFirstAux_eq_self _ _ hnd (by simp)]
  rw [hmap, List.length_map, List.length_range]

/-! ### Claim theorems -/

/-- Claim C1, counterexample: with `--last-hours 0` and `--from_time`
supplied together, the query is not rejected with the mutual-exclusion
error — line 28 of `plot_temps.py` tests Python truthiness, `0.0` is falsy,
and the query filters by the absolute bound and renders. -/
theorem plot_C1_zero_hours_counterexample :
    main argsC1 logC1 ≠ .error .mutuallyExclusive ∧
    main argsC1 logC1 =
      .ok { series := [(some "A", [(1704103200500000, some ⟨10, 1⟩)])]
            startT := 1704103200500000
            endT := 1704103200500000
            ticks := [1704103200500000]
            tickStride := 1 } := by
  exact ⟨by decide, by decide⟩

/-- Claim C1 (amended): for every log with at least one valid reading, if
`--last-hours` is supplied with a nonzero (truthy) value together with a
truthy `--from_time` or `--to_time`, `main` terminates with the
mutual-exclusion rejection before any filtering or rendering. -/
theorem plot_C1_mutual_exclusion (nm : Option (List String)) (h : ℚ)
    (ft tt : Option String) (lines : List String)
    (hz : h ≠ 0) (habs : truthyS ft = true ∨ truthyS tt = true)
    (hne : parsedLog lines ≠ []) :
    main ⟨nm, some h, ft, tt⟩ lines = .error .mutuallyExclusive := by
  cases hcsv : readCsv lines with
  | none => exact absurd (by rw [parsedLog, hcsv]; rfl) hne
  | some rows =>
    have hrows : parsedOfRows rows ≠ [] := by
      rw [parsedLog, hcsv] at hne
      exact hne
    have htq : truthyQ (some h) = true := by
      simp [truthyQ, bne_iff_ne, hz]
    have hcond : (truthyQ (some h) && (truthyS ft || truthyS tt)) = true := by
      rcases habs with h1 | h1 <;> simp [htq, h1]
    have hpre : preprocess (some h) ft tt lines = .error .mutuallyExclusive := by
      simp only [preprocess, hcsv]
      rw [if_neg hrows]
      simp [hcond]
    show (preprocess (some h) ft tt lines).bind (finalize nm) = _
    rw [hpre]
    rfl

/-- Claim C1, witness of the amended theorem at a concrete query. -/
theorem plot_C1_mutual_exclusion_witness :
    (1 : ℚ) ≠ 0 ∧ truthyS (some fromStr) = true ∧ parsedLog logC1 ≠ [] ∧
    main ⟨none, some 1, some fromStr, none⟩ logC1 = .error .mutuallyExclusive :=
  ⟨one_ne_zero, by decide, by decide,
    plot_C1_mutual_exclusion none 1 (some fromStr) none logC1 one_ne_zero
      (Or.inl (by decide)) (by decide)⟩

/-- Claim C2: a whole-second timestamp `2024-01-01 10:00:00` does not match
the sub-second format `'%Y-%m-%d %H:%M:%S.%f'` of `plot_temps.py` line 21,
so the line is coerced to invalid and dropped — contrary to the claim's
first half, the parser does not fall back to whole-second precision.  The
second half holds: an unparsable line is dropped without raising, as the
third conjunct shows on a log holding one garbage and one valid line. -/
theorem plot_C2_whole_second_dropped :
    parseTimestampSubsec "2024-01-01 10:00:00".data = none ∧
    main defaultArgs [lineWholeSecond] = .error .noValidData ∧
    main defaultArgs [lineGarbage, lineSubSecond] =
      .ok { series := [(some "A", [(1704103201250000, some ⟨240, 1⟩)])]
            startT := 1704103201250000
            endT := 1704103201250000
            ticks := [1704103201250000]
            tickStride := 1 } := by
  exact ⟨by decide, by decide, by decide⟩

/-- Claim C3: the write-then-read round trip fails on a Reading captured at
a whole second.  `str(datetime)` omits a zero microsecond field
(`read_temps.py` line 111 serializes `current_time` through `str`), the
query parser then coerces the whole-second timestamp to invalid, and
re-parsing the written log yields the empty sequence instead of the
written reading. -/
theorem read_C3_roundtrip_fails_on_whole_second :
    csvLine dtMicroZero "A" ⟨235, 1⟩ = "2024-01-01 10:00:00,A,23.5" ∧
    writeLog [(dtMicroZero, "A", ⟨235, 1⟩)] = ["2024-01-01 10:00:00,A,23.5"] ∧
    parsedLog (writeLog [(dtMicroZero, "A", ⟨235, 1⟩)]) = [] := by
  exact ⟨by decide, by decide, by decide⟩

/-- Claim C4, counterexample: a log of 100 lines of which exactly one is
malformed by a missing (trailing, temperature) field yields 100 parsed
Readings, not 99 — `read_csv` pads the missing field with NaN and the
line's timestamp still parses. -/
theorem plot_C4_missing_field_counterexample :
    (parsedLog log100).length = 100 := by decide

/-- Claim C4 (amended): a line whose timestamp fails to parse is dropped
without aborting the query, and in general exactly the rows whose parse
succeeds survive; but a line malformed by a missing trailing field is
padded with a missing value and kept, so the 100-line log with one
missing-temperature line yields 100 parsed Readings of which 99 carry a
temperature, and the query still renders. -/
theorem plot_C4_drop_semantics :
    ((parsedLog log100).filter fun r => r.temp.isSome).length = 99 ∧
    (main defaultArgs log100).isOk = true ∧
    parsedLog [lineGarbage] = [] ∧
    (∀ rows : List RawRow,
      (parsedOfRows rows).length = rows.countP fun row => (parseRow row).isSome) := by
  refine ⟨by decide, by decide, by decide, fun rows => ?_⟩
  exact List.length_filterMap_eq_countP parseRow rows

/-- Claim C5: the time filters as `plot_temps.py` lines 33-46 apply them.
An active (truthy) relative filter keeps exactly the readings at or after
`max(parsed timestamps) - last_hours`; an absolute bound keeps exactly the
readings at or after `from_time` respectively at or before `to_time`; each
bound is optional and they combine independently as a conjunction. -/
theorem plot_C5_time_filters (rs : List Reading) (h : ℚ) (s1 s2 : String) (v1 v2 : Int)
    (hz : h ≠ 0) (hs1 : s1 ≠ "") (hs2 : s2 ≠ "")
    (hp1 : parseTimestampWhole s1.data = some v1)
    (hp2 : parseTimestampWhole s2.data = some v2) :
    applyLastHours (some h) rs =
      (rs.filter fun r => decide ((maxTime rs : ℚ) - hoursToMicro h ≤ (r.time : ℚ))) ∧
    applyLastHours none rs = rs ∧
    applyFrom (some s1) rs = some (rs.filter fun r => decide (v1 ≤ r.time)) ∧
    applyFrom none rs = some rs ∧
    applyTo (some s2) rs = some (rs.filter fun r => decide (r.time ≤ v2)) ∧
    applyTo none rs = some rs ∧
    (applyFrom (some s1) rs).bind (applyTo (some s2)) =
      some (rs.filter fun r => decide (v1 ≤ r.time ∧ r.time ≤ v2)) := by
  have hfrom : applyFrom (some s1) rs = some (rs.filter fun r => decide (v1 ≤ r.time)) := by
    simp only [applyFrom, if_neg hs1, hp1]
  have hto : ∀ l : List Reading,
      applyTo (some s2) l = some (l.filter fun r => decide (r.time ≤ v2)) := by
    intro l
    simp only [applyTo, if_neg hs2, hp2]
  refine ⟨?_, rfl, hfrom, rfl, hto rs, rfl, ?_⟩
  · simp only [applyLastHours, if_neg hz]
  · rw [hfrom]
    show applyTo (some s2) _ = _
    rw [hto, List.filter_filter]
    refine congrArg some (List.filter_congr fun r _ => ?_)
    by_cases h1 : v1 ≤ r.time <;> by_cases h2 : r.time ≤ v2 <;> simp [h1, h2]

/-- Claim C5, witness at a concrete one-reading set and concrete bounds. -/
theorem plot_C5_time_filters_witness :
    (1 : ℚ) ≠ 0 ∧ fromStr ≠ "" ∧ toStr ≠ "" ∧
    parseTimestampWhole fromStr.data = some 1704099600000000 ∧
    parseTimestampWhole toStr.data = some 1704106800000000 ∧
    (applyLastHours (some 1) rsC5 =
      (rsC5.filter fun r => decide ((maxTime rsC5 : ℚ) - hoursToMicro 1 ≤ (r.time : ℚ))) ∧
    applyLastHours none rsC5 = rsC5 ∧
    applyFrom (some fromStr) rsC5 =
      some (rsC5.filter fun r => decide ((1704099600000000 : Int) ≤ r.time)) ∧
    applyFrom none rsC5 = some rsC5 ∧
    applyTo (some toStr) rsC5 =
      some (rsC5.filter fun r => decide (r.time ≤ (1704106800000000 : Int))) ∧
    applyTo none rsC5 = some rsC5 ∧
    (applyFrom (some fromStr) rsC5).bind (applyTo (some toStr)) =
      some (rsC5.filter fun r =>
        decide ((1704099600000000 : Int) ≤ r.time ∧ r.time ≤ (1704106800000000 : Int)))) :=
  ⟨one_ne_zero, by decide, by decide, by decide, by decide,
    plot_C5_time_filters rsC5 1 fromStr toStr 1704099600000000 1704106800000000
      one_ne_zero (by decide) (by decide) (by decide) (by decide)⟩

/-- Claim C6, counterexample: sensor `A` is among the parsed sensor names
of the log, yet the query `--from_time 11:00 --name A` fails with the
name-not-found rejection — `plot_temps.py` line 59 collects the names from
the time-filtered frame, not from the whole parsed log. -/
theorem plot_C6_filtered_validation_counterexample :
    (some "A") ∈ (parsedLog logC6).map Reading.name ∧
    main argsC6 logC6 = .error (.namesNotFound ["A"]) := by
  exact ⟨by decide, by decide⟩

/-- Claim C6 (amended): requested names are validated against the sensor
names present in the time-filtered data.  Any requested name absent from
the filtered frame — in particular any name absent from the whole log —
fails the whole query, reporting the offending names and rendering
nothing; when all requested names are present the query proceeds with
exactly the requested series; and with the name filter omitted every
distinct sensor name of the filtered range appears in the output
SeriesSet. -/
theorem plot_C6_name_validation (df : List Reading) (ns : List String) :
    (∀ n ∈ ns, (some n) ∉ df.map Reading.name →
      ∃ inv, finalize (some ns) df = .error (.namesNotFound inv) ∧ n ∈ inv) ∧
    (∃ out, finalize none df = .ok out ∧
      out.series.map Prod.fst = uniqFirst (df.map Reading.name)) ∧
    (ns ≠ [] →
      (ns.filter fun n => !decide ((some n) ∈ uniqFirst (df.map Reading.name))) = [] →
      ∃ out, finalize (some ns) df = .ok out ∧ out.series.map Prod.fst = ns.map some) := by
  refine ⟨?_, ?_, ?_⟩
  · intro n hn hnot
    have hne : ns ≠ [] := List.ne_nil_of_mem hn
    have hnotu : (some n) ∉ uniqFirst (df.map Reading.name) := by
      rw [mem_uniqFirst]
      exact hnot
    have hmem : n ∈ ns.filter fun m => !decide ((some m) ∈ uniqFirst (df.map Reading.name)) := by
      rw [List.mem_filter]
      exact ⟨hn, by simp [hnotu]⟩
    have hinv : (ns.filter fun m => !decide ((some m) ∈ uniqFirst (df.map Reading.name))) ≠ [] :=
      List.ne_nil_of_mem hmem
    refine ⟨_, ?_, hmem⟩
    simp only [finalize, plotNamesResult, if_neg hne, if_neg hinv]
  · refine ⟨_, rfl, ?_⟩
    have hid : (Prod.fst ∘ fun n : Option String => (n, seriesFor df n)) = id := rfl
    simp only [finalize, plotNamesResult, mkOutput, List.map_map, hid, List.map_id]
  · intro hne hinv
    refine ⟨mkOutput df (ns.map some), ?_, ?_⟩
    · simp only [finalize, plotNamesResult, if_neg hne, if_pos hinv]
    · have hid2 : (Prod.fst ∘ (fun n : Option String => (n, seriesFor df n)) ∘ some) =
          (fun n : String => some n) := rfl
      simp only [mkOutput, List.map_map, hid2]

/-- Claim C6, witness: a requested name absent from the data fails the
query reporting it. -/
theorem plot_C6_name_validation_witness :
    ("B" ∈ ["B"]) ∧ (some "B") ∉ rsC5.map Reading.name ∧
    (∃ inv, finalize (some ["B"]) rsC5 = .error (.namesNotFound inv) ∧ "B" ∈ inv) :=
  ⟨by decide, by decide,
    (plot_C6_name_validation rsC5 ["B"]).1 "B" (by decide) (by decide)⟩

/-- Claim C7: the Query Engine does not sort.  On a log whose two lines are
out of chronological order, the output series of sensor `A` carries the
later timestamp first — series are emitted in file order, not sorted by
timestamp. -/
theorem plot_C7_no_sort :
    main defaultArgs logC7 =
      .ok { series := [(some "A",
              [(1704110400100000, some ⟨20, 1⟩), (1704103200100000, some ⟨10, 1⟩)])]
            startT := 1704103200100000
            endT := 1704110400100000
            ticks := [1704110400100000, 1704103200100000]
            tickStride := 1 } ∧
    (1704103200100000 : Int) < 1704110400100000 := by
  exact ⟨by decide, by decide⟩

/-- Claim C8: starting from the lazily-created empty buffer, after any
sequence of pushes the per-sensor live buffer holds at most 60 entries in
each of its parallel lists; and a push into a full buffer evicts exactly
the oldest entry, appending the new one at the tail and leaving the FIFO
order of the remaining entries unchanged. -/
theorem read_C8_live_buffer :
    (∀ ps : List (Int × ℚ), (applyPushes ps).times.length ≤ 60 ∧
      (applyPushes ps).temps.length ≤ 60) ∧
    (∀ (d : SensorData) (t : Int) (v : ℚ), d.times.length = 60 → d.temps.length = 60 →
      pushReading d t v = ⟨d.times.drop 1 ++ [t], d.temps.drop 1 ++ [v]⟩) := by
  constructor
  · intro ps
    have h := foldl_push_inv ps ⟨[], []⟩ rfl (by simp)
    exact ⟨h.2, h.1 ▸ h.2⟩
  · intro d t v ht hv
    have hgt : (d.times ++ [t]).length > 60 := by
      rw [List.length_append, ht]
      simp
    rw [pushReading, if_pos hgt]
    have h1 : (d.times ++ [t]).drop 1 = d.times.drop 1 ++ [t] :=
      List.drop_append_of_le_length (by omega)
    have h2 : (d.temps ++ [v]).drop 1 = d.temps.drop 1 ++ [v] :=
      List.drop_append_of_le_length (by omega)
    rw [h1, h2]

/-- Claim C8, witness: pushing into a buffer of 60 entries drops the head
of both lists and appends the new entry. -/
theorem read_C8_live_buffer_witness :
    bufFull.times.length = 60 ∧ bufFull.temps.length = 60 ∧
    pushReading bufFull 60 60 =
      ⟨bufFull.times.drop 1 ++ [60], bufFull.temps.drop 1 ++ [60]⟩ :=
  ⟨by simp [bufFull], by simp [bufFull],
    read_C8_live_buffer.2 bufFull 60 60 (by simp [bufFull]) (by simp [bufFull])⟩

/-- Claim C9: the axis tick-sampling stride of `plot_temps.py` line 85 is
`max(1, d // 10)` where `d` is the number of distinct timestamps in the
filtered data; at `d = 1000` the stride is 100. -/
theorem plot_C9_tick_stride :
    (∀ rs : List Reading, strideOf rs = max 1 ((distinctTimes rs).length / 10)) ∧
    (∀ rs : List Reading, (distinctTimes rs).length = 1000 → strideOf rs = 100) := by
  constructor
  · intro rs
    rfl
  · intro rs h
    rw [strideOf, h]
    decide

/-- Claim C9, witness on a set with 1000 distinct timestamps. -/
theorem plot_C9_tick_stride_witness :
    (distinctTimes rs1000).length = 1000 ∧ strideOf rs1000 = 100 :=
  ⟨distinctTimes_rs1000, plot_C9_tick_stride.2 rs1000 distinctTimes_rs1000⟩

/-- Claim C10: whenever a query with a name filter succeeds, the query with
the name filter omitted succeeds on the same log and time filter and
produces the same summary start/end timestamps (which are also the x-axis
limits), the same tick positions and the same tick stride — they are
computed from all sensors' readings in the filtered range, never from the
requested subset. -/
theorem plot_C10_summary_independent_of_names (lh : Option ℚ) (ft tt : Option String)
    (ns : List String) (lines : List String) (out : Output)
    (hok : main ⟨some ns, lh, ft, tt⟩ lines = .ok out) :
    ∃ out2, main ⟨none, lh, ft, tt⟩ lines = .ok out2 ∧
      out2.startT = out.startT ∧ out2.endT = out.endT ∧
      out2.ticks = out.ticks ∧ out2.tickStride = out.tickStride := by
  have hok' : (preprocess lh ft tt lines).bind (finalize (some ns)) = .ok out := hok
  cases hp : preprocess lh ft tt lines with
  | error e =>
    rw [hp] at hok'
    exact absurd hok' (by simp [Except.bind])
  | ok df =>
    rw [hp] at hok'
    have hfin : finalize (some ns) df = .ok out := hok'
    have hout : out.startT = minTime df ∧ out.endT = maxTime df ∧
        out.ticks = ticksOf df ∧ out.tickStride = strideOf df := by
      rw [finalize] at hfin
      cases hpn : plotNamesResult (some ns) df with
      | error inv =>
        rw [hpn] at hfin
        exact absurd hfin (by simp)
      | ok pns =>
        rw [hpn] at hfin
        simp only [Except.ok.injEq] at hfin
        rw [← hfin]
        exact ⟨rfl, rfl, rfl, rfl⟩
    refine ⟨mkOutput df (uniqFirst (df.map Reading.name)), ?_, ?_, ?_, ?_, ?_⟩
    · show (preprocess lh ft tt lines).bind (finalize none) = _
      rw [hp]
      rfl
    · exact hout.1.symm
    · exact hout.2.1.symm
    · exact hout.2.2.1.symm
    · exact hout.2.2.2.symm

/-- Claim C10, witness: restricting `logC10` to sensor `A` keeps the
summary and ticks of both sensors. -/
theorem plot_C10_summary_independent_of_names_witness :
    main ⟨some ["A"], none, none, none⟩ logC10 = .ok outC10 ∧
    (∃ out2, main ⟨none, none, none, none⟩ logC10 = .ok out2 ∧
      out2.startT = outC10.startT ∧ out2.endT = outC10.endT ∧
      out2.ticks = outC10.ticks ∧ out2.tickStride = outC10.tickStride) :=
  ⟨by decide,
    plot_C10_summary_independent_of_names none none none ["A"] logC10 outC10 (by decide)⟩

end TempsModel
